import Mathlib

/-!
Verification of the real-time ride-dispatch engine of `src/utils/socket.js`.

The socket handlers are embedded as pure Lean functions.  The mutable
module-level JS `Map`s (`connectedClients`, `driverLocations`, `activeRides`,
`driverMovementHistory`) are modelled as insertion-ordered association lists
(JS `Map` keys are unique, iteration follows insertion order, and `set` on an
existing key keeps its position).  `Date.now()` / `new Date()` values are
passed in as an explicit `now : ℤ` (milliseconds).  JS numbers are modelled as
`ℚ`; a JS value that may be `undefined` is modelled as an `Option`, and the JS
truthiness idiom `x || y` on numbers/strings (where `0`, `""` and `undefined`
are falsy) is modelled by `qOr` / `strOr`.  Outbound `io.to(...).emit` /
`socket.emit` calls are collected into a list of `Emit` records.
-/

set_option linter.unusedVariables false

namespace RideEngine

/-- JS `Map.get`: value of the first (unique) entry with the given key. -/
def mapGet (m : List (String × α)) (k : String) : Option α :=
  match m with
  | [] => none
  | p :: rest => if p.1 = k then some p.2 else mapGet rest k

/-- JS `Map.set`: replace the value in place if the key is present, else append. -/
def mapSet (m : List (String × α)) (k : String) (v : α) : List (String × α) :=
  match m with
  | [] => [(k, v)]
  | p :: rest => if p.1 = k then (k, v) :: rest else p :: mapSet rest k v

/-- JS `Map.delete`: drop the entries with the given key (keys are unique in a JS map). -/
def mapDelete (m : List (String × α)) (k : String) : List (String × α) :=
  m.filter (fun p => decide (¬ p.1 = k))

/-- JS `Array.from(map.values())`. -/
def mapValues (m : List (String × α)) : List α :=
  m.map Prod.snd

/-! ## GeoMath (`calculateFare`, `FARE_PER_KM`)

`calculateDistance` (the Haversine formula) uses transcendental functions, so
handlers that call it are parameterised by an abstract
`dist : Location → Location → ℚ` standing for `calculateDistance`; the only
property of the Haversine distance a claim needs is that it is nonnegative
(it is `R * c` with `R = 6371` and `c = 2·atan2(√a, √(1-a)) ≥ 0`), which is
taken as a hypothesis where required. -/

/-- `FARE_PER_KM = 20` (20 taka per kilometer). -/
def FARE_PER_KM : ℚ := 20

/-- JS `Math.round`: rounds half towards positive infinity, `round(x) = ⌊x + 1/2⌋`. -/
def jsRound (q : ℚ) : ℤ := ⌊q + 1/2⌋

/-- `calculateFare(distance) = Math.round(distance * FARE_PER_KM)`. -/
def calculateFare (distance : ℚ) : ℚ :=
  (jsRound (distance * FARE_PER_KM) : ℚ)

/-- `minimumFare: 50` from `src/config/maps.config.js` (never consulted by `socket.js`). -/
def MINIMUM_FARE : ℚ := 50

/-- JS `x || y` for a possibly-`undefined` number: `undefined` and `0` are falsy. -/
def qOr (x : Option ℚ) (y : ℚ) : ℚ :=
  match x with
  | none => y
  | some v => if v = 0 then y else v

/-- JS `x || y` for a possibly-`undefined` string: `undefined` and `""` are falsy. -/
def strOr (x : Option String) (y : String) : String :=
  match x with
  | none => y
  | some s => if s = "" then y else s

/-- The distance selection in the words of the specification: the accrued
distance when strictly positive, otherwise the fallback.  Used to compare the
code's truthiness-based `qOr` against the spec's "if > 0" phrasing. -/
def posOr (x : Option ℚ) (y : ℚ) : ℚ :=
  match x with
  | some v => if 0 < v then v else y
  | none => y

/-- JS `x || y` for a possibly-`undefined` integer timestamp. -/
def zOr (x : Option ℤ) (y : ℤ) : ℤ :=
  match x with
  | none => y
  | some t => if t = 0 then y else t

/-! ## Data model -/

/-- A latitude/longitude pair (`{latitude, longitude}`). -/
structure Location where
  latitude : ℚ
  longitude : ℚ
deriving DecidableEq, Repr

/-- A timestamped point as pushed onto `driverMovementHistory` and `ride.route`. -/
structure RoutePoint where
  latitude : ℚ
  longitude : ℚ
  timestamp : ℤ
deriving DecidableEq, Repr

/-- The coordinates of a route point (what `calculateDistance` reads). -/
def RoutePoint.loc (p : RoutePoint) : Location :=
  ⟨p.latitude, p.longitude⟩

/-- An entry of `connectedClients`.  The JS client object may lack `isOnline` /
`location`; an absent `isOnline` is only ever used truthily so it is modelled
as `false`, and an absent `location` as `none`. -/
structure Client where
  socketId : String
  userType : String
  connected : Bool
  isOnline : Bool
  location : Option Location
  lastActive : ℤ
deriving DecidableEq, Repr

/-- The driver card built inside `driver_accept_ride`.  In the source its
`rating`, vehicle fields and plate number come from `Math.random()`; that
nondeterminism is modelled by passing the constructed record in as an input. -/
structure DriverData where
  id : String
  name : String
  phoneNumber : String
  rating : ℚ
  make : String
  model : String
  color : String
  plateNumber : String
deriving DecidableEq, Repr

/-- An entry of `activeRides`.  Fields that the handlers only set later are
`Option`s (`undefined` before being assigned). -/
structure Ride where
  id : String
  userId : String
  pickupLocation : Location
  dropoffLocation : Location
  rideType : String
  paymentMethod : String
  vehicleDetails : Option String
  status : String
  requestTime : ℤ
  estimatedDistance : ℚ
  estimatedPrice : ℚ
  currency : String
  potentialDrivers : Option (List String)
  driverId : Option String
  driver : Option DriverData
  acceptedTime : Option ℤ
  arrivedTime : Option ℤ
  arrivalTime : Option ℤ
  startTime : Option ℤ
  endTime : Option ℤ
  cancelledTime : Option ℤ
  actualDistance : Option ℚ
  updatedFare : Option ℚ
  actualPrice : Option ℚ
  duration : Option ℤ
  finalFare : Option ℚ
  actualDuration : Option ℤ
  route : List RoutePoint
  cancelledBy : Option String
  cancellationReason : Option String
deriving DecidableEq, Repr

abbrev ClientMap := List (String × Client)
abbrev RideMap := List (String × Ride)
abbrev HistMap := List (String × List RoutePoint)
abbrev DriverLocMap := List (String × (Location × ℤ))

/-- Where an outbound event is addressed: the triggering socket (`socket.emit`),
a room (`io.to(room).emit`), or a raw socket id (`io.to(socketId).emit`). -/
inductive Target where
  | caller
  | room (name : String)
  | sock (sid : String)
deriving DecidableEq, Repr

/-- Payload content a claim inspects (only the movement history matters). -/
inductive PData where
  | unit
  | hist (h : List RoutePoint)
deriving DecidableEq, Repr

/-- One outbound `emit`. -/
structure Emit where
  target : Target
  event : String
  data : PData
deriving DecidableEq, Repr

/-- `createAndSendNotification`: validates, writes to the collaborator store
(fire-and-forget, external) and emits a `notification` event to the user's
room.  Every call site passes nonempty literal title/body, so only the
`userId` guard is observable. -/
def notifyEmits (userId : String) : List Emit :=
  if userId = "" then [] else [⟨Target.room ("user:" ++ userId), "notification", PData.unit⟩]

/-- `['driverAccepted', 'driverArrived', 'inProgress'].includes(status)`. -/
def isActiveDriverStatus (s : String) : Bool :=
  decide (s = "driverAccepted" ∨ s = "driverArrived" ∨ s = "inProgress")

/-- `Array.from(activeRides.values()).find(ride => ride.driverId === driverId && [...].includes(ride.status))`. -/
def findActiveRide (rides : RideMap) (driverId : String) : Option Ride :=
  (mapValues rides).find? (fun r => decide (r.driverId = some driverId) && isActiveDriverStatus r.status)

/-! ## Handlers

Each socket handler is a pure function of its payload, the relevant registry
maps, the clock, and the socket context.  The socket context is passed as
`uid : Option String` (`socket.userId`, unset before `authenticate`) and,
where the source reads it, `sid : String` (`socket.id`); exposing them as
explicit arguments lets the noninterference claims be stated. -/

/-- Reply to the caller carrying only an error message. -/
def errorEmit : Emit := ⟨Target.caller, "ride_action_error", PData.unit⟩

/-- Success reply to the caller (`ride_action_success`). -/
def successEmit : Emit := ⟨Target.caller, "ride_action_success", PData.unit⟩

/-- The movement-trail update of `updateDriverMovement`: push the sample and
`shift()` the oldest entry when the trail exceeds 100. -/
def pushTrail (history : List RoutePoint) (pt : RoutePoint) : List RoutePoint :=
  if (history ++ [pt]).length > 100 then (history ++ [pt]).tail else history ++ [pt]

/-- `updateDriverMovement(io, driverId, location, ride)` (socket.js 98-160):
appends to the driver's movement history (cap 100, FIFO), and when a ride is
given appends the point to `ride.route` and, if the segment from the previous
history point exceeds 0.01 km, accrues it into `ride.actualDistance` and
recomputes `ride.updatedFare`. -/
def updateDriverMovement (dist : Location → Location → ℚ) (driverId : String)
    (location : Location) (now : ℤ) (hist : HistMap) (ride : Option Ride)
    (rides : RideMap) : HistMap × RideMap :=
  let history := (mapGet hist driverId).getD []
  let pt : RoutePoint := ⟨location.latitude, location.longitude, now⟩
  let history := pushTrail history pt
  let hist := mapSet hist driverId history
  match ride with
  | none => (hist, rides)
  | some ride =>
    let ride := { ride with route := ride.route ++ [pt] }
    let rides := mapSet rides ride.id ride
    if history.length ≥ 2 then
      let prevLocation := history.getD (history.length - 2) ⟨0, 0, 0⟩
      let currentLocation := history.getD (history.length - 1) ⟨0, 0, 0⟩
      let segmentDistance := dist prevLocation.loc currentLocation.loc
      if segmentDistance > 0.01 then
        let newDistance := qOr ride.actualDistance 0 + segmentDistance
        let ride := { ride with
          actualDistance := some newDistance
          updatedFare := some (calculateFare newDistance) }
        (hist, mapSet rides ride.id ride)
      else (hist, rides)
    else (hist, rides)

/-- Result of the `driver_status_update` handler. -/
structure DsuResult where
  clients : ClientMap
  dlocs : DriverLocMap
  emits : List Emit
deriving DecidableEq, Repr

/-- `driver_status_update` handler (socket.js 257-319).  Upserts the driver's
client record (recording the emitting socket's id), stores the location, and
on a true→false `isOnline` edge with an active ride notifies that ride's
rider with `driver_offline`; always confirms to the caller. -/
def driverStatusUpdate (uid : Option String) (sid : String) (driverId : String)
    (isOnline : Bool) (location : Option Location) (now : ℤ)
    (clients : ClientMap) (dlocs : DriverLocMap) (rides : RideMap) : DsuResult :=
  if driverId = "" then ⟨clients, dlocs, []⟩ else
    let client := (mapGet clients driverId).getD
      { socketId := sid, userType := "driver", connected := true,
        isOnline := false, location := none, lastActive := now }
    let wasOnline := client.isOnline
    let client := { client with
      isOnline := isOnline
      location := location
      lastActive := now
      socketId := sid
      connected := true }
    let clients := mapSet clients driverId client
    let dlocs := match location with
      | some l => mapSet dlocs driverId (l, now)
      | none => dlocs
    let offlineEmits :=
      if wasOnline = true ∧ isOnline = false then
        match findActiveRide rides driverId with
        | some r => [⟨Target.room ("user:" ++ r.userId), "driver_offline", PData.unit⟩]
        | none => []
      else []
    ⟨clients, dlocs, offlineEmits ++ [⟨Target.caller, "driver_status_updated", PData.unit⟩]⟩

/-- `disconnect` handler (socket.js 1319-1340): marks the client disconnected
and, for a driver, forces `isOnline = false`.  It emits nothing. -/
def disconnectHandler (uid : Option String) (now : ℤ) (clients : ClientMap) :
    ClientMap × List Emit :=
  match uid with
  | none => (clients, [])
  | some userId =>
    match mapGet clients userId with
    | none => (clients, [])
    | some client =>
      let client := { client with connected := false, lastActive := now }
      let client := if client.userType = "driver"
        then { client with isOnline := false } else client
      (mapSet clients userId client, [])

/-- `client.userType === 'driver' && client.connected === true` — the filter
the `ride_request` handler uses to pick broadcast recipients (the `isOnline`
flag is not consulted there). -/
def connectedDrivers (clients : ClientMap) : ClientMap :=
  clients.filter (fun p => decide (p.2.userType = "driver" ∧ p.2.connected = true))

/-- Result of the `ride_request` handler; `timerSet` records whether the
30-second no-acceptance `setTimeout` was installed. -/
structure RideRequestResult where
  rides : RideMap
  emits : List Emit
  timerSet : Bool
deriving DecidableEq, Repr

/-- `ride_request` handler (socket.js 441-613).  Creates a `searching` ride,
computes distance/price with `caller-value || computed` fallbacks, then
broadcasts `ride_assigned` to every connected driver (these become
`potentialDrivers`) and arms the timeout; with no connected driver it emits
`ride_request_error` and deletes the ride without arming the timeout. -/
def rideRequestHandler (dist : Location → Location → ℚ) (uid : Option String)
    (userId : String) (pickupLocation dropoffLocation : Option Location)
    (rideType paymentMethod : Option String) (estimatedPrice : Option ℚ)
    (estimatedDistance : Option ℚ) (vehicleDetails : Option String) (now : ℤ)
    (clients : ClientMap) (rides : RideMap) : RideRequestResult :=
  if userId = "" ∨ pickupLocation = none ∨ dropoffLocation = none then
    ⟨rides, [⟨Target.caller, "ride_request_error", PData.unit⟩], false⟩
  else
    let pickup := pickupLocation.getD ⟨0, 0⟩
    let dropoff := dropoffLocation.getD ⟨0, 0⟩
    let distance := qOr estimatedDistance (dist pickup dropoff)
    let finalEstimatedPrice := qOr estimatedPrice (calculateFare distance)
    let rideId := "ride_" ++ toString now ++ "_" ++ userId
    let ride : Ride :=
      { id := rideId, userId := userId, pickupLocation := pickup,
        dropoffLocation := dropoff, rideType := strOr rideType "standard",
        paymentMethod := strOr paymentMethod "cash",
        vehicleDetails := vehicleDetails, status := "searching",
        requestTime := now, estimatedDistance := distance,
        estimatedPrice := finalEstimatedPrice, currency := "BDT",
        potentialDrivers := none, driverId := none, driver := none,
        acceptedTime := none, arrivedTime := none, arrivalTime := none,
        startTime := none,
        endTime := none, cancelledTime := none, actualDistance := none,
        updatedFare := none, actualPrice := none, duration := none,
        finalFare := none, actualDuration := none, route := [],
        cancelledBy := none, cancellationReason := none }
    let rides := mapSet rides rideId ride
    let baseEmits := [⟨Target.caller, "ride_request_received", PData.unit⟩] ++ notifyEmits userId
    let allDrivers := connectedDrivers clients
    if allDrivers = [] then
      ⟨mapDelete rides rideId,
        baseEmits ++ [⟨Target.caller, "ride_request_error", PData.unit⟩] ++ notifyEmits userId,
        false⟩
    else
      let offerEmits := allDrivers.foldr (fun p acc =>
        [⟨Target.room ("user:" ++ p.1), "ride_assigned", PData.unit⟩] ++
        (if p.2.socketId = "" then []
         else [⟨Target.sock p.2.socketId, "ride_assigned", PData.unit⟩]) ++
        notifyEmits p.1 ++ acc) []
      let ride := { ride with potentialDrivers := some (allDrivers.map Prod.fst) }
      ⟨mapSet rides rideId ride, baseEmits ++ offerEmits, true⟩

/-- The candidate set of a ride (`ride.potentialDrivers`, `[]` when unset). -/
def candidatesOf (r : Ride) : List String :=
  r.potentialDrivers.getD []

/-- `driver_accept_ride` handler (socket.js 616-711).  Accepts only when the
ride exists, is still `searching`, and the driver is a candidate; on success
assigns the driver, moves to `driverAccepted`, stamps `acceptedTime`, notifies
the losing candidates with `ride_taken` and the rider with `driver_accepted`. -/
def driverAcceptRide (uid : Option String) (rideId driverId : String)
    (driverData : DriverData) (now : ℤ) (rides : RideMap) : RideMap × List Emit :=
  match mapGet rides rideId with
  | none => (rides, [errorEmit])
  | some ride =>
    if ride.status ≠ "searching" then (rides, [errorEmit])
    else
      match ride.potentialDrivers with
      | none => (rides, [errorEmit])
      | some cands =>
        if driverId ∉ cands then (rides, [errorEmit])
        else
          let ride := { ride with
            driverId := some driverId
            driver := some driverData
            status := "driverAccepted"
            acceptedTime := some now }
          let rides := mapSet rides rideId ride
          let takenEmits := cands.foldr (fun c acc =>
            (if c ≠ driverId
             then [⟨Target.room ("user:" ++ c), "ride_taken", PData.unit⟩]
             else []) ++ acc) []
          (rides, takenEmits ++
            [⟨Target.room ("user:" ++ ride.userId), "driver_accepted", PData.unit⟩] ++
            notifyEmits ride.userId ++ [successEmit])

/-- First `driver_arrived` listener (socket.js 714-752).  Rejects only a
missing ride or a non-matching `driverId`; otherwise sets `driverArrived` (no
check of the previous status).  The source registers a second listener for the
same event (`driverArrivedSecondListener` below); both run on every
`driver_arrived` event, in registration order — `driverArrivedEvent` is the
composition. -/
def driverArrivedHandler (uid : Option String) (rideId driverId : String)
    (now : ℤ) (rides : RideMap) : RideMap × List Emit :=
  match mapGet rides rideId with
  | none => (rides, [errorEmit])
  | some ride =>
    if ride.driverId ≠ some driverId then (rides, [errorEmit])
    else
      let ride := { ride with
        status := "driverArrived"
        arrivedTime := some now }
      (mapSet rides rideId ride,
        [⟨Target.room ("user:" ++ ride.userId), "driver_arrived", PData.unit⟩] ++
        notifyEmits ride.userId ++ [successEmit])

/-- Second `driver_arrived` listener (socket.js 1026-1062).  Silently ignores
an unknown ride; for any existing ride — the payload's `driverId` is never
compared with the ride's — it sets `driverArrived`, stamps `arrivalTime`,
trims the route to its last point, resets `actualDistance` to 0 and notifies
the rider. -/
def driverArrivedSecondListener (uid : Option String) (driverId rideId : String)
    (now : ℤ) (rides : RideMap) : RideMap × List Emit :=
  match mapGet rides rideId with
  | none => (rides, [])
  | some ride =>
    let ride := { ride with
      status := "driverArrived"
      arrivalTime := some now }
    let rides := mapSet rides rideId ride
    let (ride, rides) :=
      if ride.route.length > 0 then
        let lastPosition := ride.route.getD (ride.route.length - 1) ⟨0, 0, 0⟩
        let ride := { ride with route := [lastPosition] }
        (ride, mapSet rides rideId ride)
      else (ride, rides)
    let ride := { ride with actualDistance := some (0 : ℚ) }
    (mapSet rides rideId ride,
      [⟨Target.room ("user:" ++ ride.userId), "driver_arrived", PData.unit⟩] ++
      notifyEmits ride.userId)

/-- The full `driver_arrived` event: a Socket.IO socket is an EventEmitter, so
both registered listeners run, in registration order, against the shared
registry. -/
def driverArrivedEvent (uid : Option String) (rideId driverId : String)
    (now : ℤ) (rides : RideMap) : RideMap × List Emit :=
  let res1 := driverArrivedHandler uid rideId driverId now rides
  let res2 := driverArrivedSecondListener uid driverId rideId now res1.1
  (res2.1, res1.2 ++ res2.2)

/-- The route trimming of the second `driver_arrived` listener: keep only the
last recorded position (the route unchanged when it is empty). -/
def trimRoute (route : List RoutePoint) : List RoutePoint :=
  if route.length > 0 then [route.getD (route.length - 1) ⟨0, 0, 0⟩] else route

/-- `start_ride` handler (socket.js 755-794).  Rejects only a missing ride or
a non-matching `driverId`; otherwise sets `inProgress` and `startTime` (no
check of the previous status). -/
def startRideHandler (uid : Option String) (rideId driverId : String)
    (now : ℤ) (rides : RideMap) : RideMap × List Emit :=
  match mapGet rides rideId with
  | none => (rides, [errorEmit])
  | some ride =>
    if ride.driverId ≠ some driverId then (rides, [errorEmit])
    else
      let ride := { ride with
        status := "inProgress"
        startTime := some now }
      (mapSet rides rideId ride,
        [⟨Target.room ("user:" ++ ride.userId), "ride_started", PData.unit⟩] ++
        notifyEmits ride.userId ++ [successEmit])

/-- `complete_ride` handler (socket.js 797-855).  Rejects only a missing ride
or a non-matching `driverId`; otherwise marks `completed`, stores
`actualPrice = actualPrice || estimatedPrice` (the caller's value when
truthy), and the duration in minutes (`NaN`, modelled `none`, when
`startTime` was never set).  The five-minute cleanup `setTimeout` that later
evicts the entry is outside the per-event step and not modelled. -/
def completeRideHandler (uid : Option String) (rideId driverId : String)
    (actualPrice : Option ℚ) (now : ℤ) (rides : RideMap) : RideMap × List Emit :=
  match mapGet rides rideId with
  | none => (rides, [errorEmit])
  | some ride =>
    if ride.driverId ≠ some driverId then (rides, [errorEmit])
    else
      let ride := { ride with
        status := "completed"
        endTime := some now
        actualPrice := some (qOr actualPrice ride.estimatedPrice)
        duration := (match ride.startTime with
          | some s => some (jsRound (((now - s : ℤ) : ℚ) / 60000))
          | none => none) }
      (mapSet rides rideId ride,
        [⟨Target.room ("user:" ++ ride.userId), "ride_completed", PData.unit⟩] ++
        notifyEmits ride.userId ++ [successEmit])

/-- `ride_completed` handler (socket.js 1108-1177), the fare-settling
completion path: `finalFare = calculateFare(actualDistance || estimatedDistance)`
and `actualDuration` in minutes when `startTime` is set; silently ignores an
unknown ride.  The ten-minute cleanup `setTimeout` is outside the per-event
step and not modelled. -/
def rideCompletedHandler (uid : Option String) (driverId rideId : String)
    (now : ℤ) (rides : RideMap) : RideMap × List Emit :=
  match mapGet rides rideId with
  | none => (rides, [])
  | some ride =>
    let distance := qOr ride.actualDistance ride.estimatedDistance
    let finalFare := calculateFare distance
    let ride := { ride with
      status := "completed"
      endTime := some now
      finalFare := some finalFare
      actualDistance := some distance
      actualDuration := (match ride.startTime with
        | some s => some (jsRound (((now - s : ℤ) : ℚ) / (1000 * 60)))
        | none => ride.actualDuration) }
    (mapSet rides rideId ride,
      [⟨Target.room ("user:" ++ ride.userId), "ride_completed", PData.unit⟩] ++
      notifyEmits ride.userId ++
      [⟨Target.room ("user:" ++ driverId), "ride_completed_driver", PData.unit⟩])

/-- First `cancel_ride` listener (socket.js 858-933).  Allowed for the rider
or the assigned driver (both taken from the payload); records who cancelled
and why and notifies the other party.  A second listener for the same event
(socket.js 1180-1238) also runs; it re-checks the same payload-only
authorization, overwrites `cancelledBy` with the raw payload `userId` and
emits further events — like this one it reads no socket identity. -/
def cancelRideHandler (uid : Option String) (rideId userId : String)
    (reason : Option String) (now : ℤ) (rides : RideMap) : RideMap × List Emit :=
  match mapGet rides rideId with
  | none => (rides, [errorEmit])
  | some ride =>
    if ride.userId ≠ userId ∧ ride.driverId ≠ some userId then (rides, [errorEmit])
    else
      let ride := { ride with
        status := "cancelled"
        cancelledTime := some now
        cancelledBy := some (if ride.userId = userId then "passenger" else "driver")
        cancellationReason := some (strOr reason "No reason provided") }
      let rides := mapSet rides rideId ride
      let riderEmits := if ride.userId ≠ userId then
          [⟨Target.room ("user:" ++ ride.userId), "ride_cancelled", PData.unit⟩] ++
          notifyEmits ride.userId
        else []
      let driverEmits := match ride.driverId with
        | some d => if d ≠ userId then
            [⟨Target.room ("user:" ++ d), "ride_cancelled", PData.unit⟩] ++ notifyEmits d
          else []
        | none => []
      (rides, riderEmits ++ driverEmits ++ [successEmit])

/-- `request_driver_movement` handler (socket.js 422-438).  Requires a ride
owned by the requesting socket's authenticated user, then returns the named
driver's movement history (the ride's assigned driver is not checked). -/
def requestDriverMovement (uid : Option String) (rideId driverId : String)
    (rides : RideMap) (hist : HistMap) : List Emit :=
  if rideId = "" ∨ driverId = "" then []
  else
    match mapGet rides rideId with
    | none => []
    | some ride =>
      if uid ≠ some ride.userId then []
      else [⟨Target.caller, "driver_movement_history",
             PData.hist ((mapGet hist driverId).getD [])⟩]

/-- Result of the `driver_location_update` handler. -/
structure DluResult where
  dlocs : DriverLocMap
  clients : ClientMap
  hist : HistMap
  rides : RideMap
  emits : List Emit
deriving Repr

/-- `driver_location_update` handler (socket.js 322-354): records the latest
location, refreshes the client entry, and when the driver holds an active ride
routes the sample through `updateDriverMovement` and mirrors it to the rider. -/
def driverLocationUpdate (uid : Option String) (dist : Location → Location → ℚ)
    (driverId : String) (location : Option Location) (timestamp : Option ℤ)
    (now : ℤ) (clients : ClientMap) (dlocs : DriverLocMap) (hist : HistMap)
    (rides : RideMap) : DluResult :=
  match location with
  | none => ⟨dlocs, clients, hist, rides, []⟩
  | some loc =>
    if driverId = "" then ⟨dlocs, clients, hist, rides, []⟩ else
      let dlocs := mapSet dlocs driverId (loc, zOr timestamp now)
      let clients := match mapGet clients driverId with
        | some client =>
          mapSet clients driverId { client with location := some loc, lastActive := now }
        | none => clients
      match findActiveRide rides driverId with
      | some activeRide =>
        let (hist, rides) := updateDriverMovement dist driverId loc now hist (some activeRide) rides
        ⟨dlocs, clients, hist, rides,
          [⟨Target.room ("user:" ++ activeRide.userId), "driver_location_update", PData.unit⟩]⟩
      | none => ⟨dlocs, clients, hist, rides, []⟩

/-! ## Derived runs and counting -/

/-- Number of emitted events with the given name. -/
def countEvent (event : String) (es : List Emit) : ℕ :=
  (es.filter (fun e => decide (e.event = event))).length

/-- The room names an event was emitted to, in emission order. -/
def roomTargets (event : String) (es : List Emit) : List String :=
  es.foldr (fun e acc =>
    match e.target with
    | Target.room rm => if e.event = event then rm :: acc else acc
    | _ => acc) []

/-- A client record with the connection handle blanked, for stating that a
handler's effect is connection-independent apart from the stored socket id. -/
def Client.clearSocket (c : Client) : Client :=
  { c with socketId := "" }

/-- A sequence of `driver_accept_ride` calls against the same ride processed
one at a time (each attempt is a driver id, its driver card, and its clock
reading); the registry is threaded through and all emissions are collected. -/
def runAccepts (rideId : String) (attempts : List (String × DriverData × ℤ))
    (rides : RideMap) : RideMap × List Emit :=
  attempts.foldl (fun acc a =>
    let res := driverAcceptRide none rideId a.1 a.2.1 a.2.2 acc.1
    (res.1, acc.2 ++ res.2)) (rides, [])

/-! ## Concrete fixtures used by witnesses and counterexamples -/

/-- A fully-populated fresh ride as built by the `ride_request` handler,
used as the base state of concrete scenarios. -/
def sampleRide : Ride :=
  { id := "r1", userId := "u1", pickupLocation := ⟨1, 2⟩, dropoffLocation := ⟨3, 4⟩,
    rideType := "standard", paymentMethod := "cash", vehicleDetails := none,
    status := "searching", requestTime := 0, estimatedDistance := 5,
    estimatedPrice := 100, currency := "BDT", potentialDrivers := none,
    driverId := none, driver := none, acceptedTime := none, arrivedTime := none,
    arrivalTime := none,
    startTime := none, endTime := none, cancelledTime := none, actualDistance := none,
    updatedFare := none, actualPrice := none, duration := none, finalFare := none,
    actualDuration := none, route := [], cancelledBy := none, cancellationReason := none }

/-- A connected online driver client record. -/
def sampleDriverClient : Client :=
  { socketId := "s1", userType := "driver", connected := true, isOnline := true,
    location := none, lastActive := 0 }

/-- A driver card as `driver_accept_ride` would build one. -/
def sampleDriverData : DriverData :=
  { id := "d1", name := "Driver d1", phoneNumber := "+8801234567890", rating := 4.5,
    make := "Toyota", model := "Corolla", color := "White", plateNumber := "DHA-1234" }

/-- A ride in the `searching` state whose offer went to drivers d1 and d2. -/
def searchingRide : Ride :=
  { sampleRide with potentialDrivers := some ["d1", "d2"] }

/-- A ride already completed by driver d1. -/
def completedRide : Ride :=
  { sampleRide with status := "completed", driverId := some "d1" }

/-! ## Association-list lemmas for the JS `Map` model -/

theorem mapGet_set_self (m : List (String × α)) (k : String) (v : α) :
    mapGet (mapSet m k v) k = some v := by
  induction m with
  | nil => simp [mapGet, mapSet]
  | cons p rest ih =>
    by_cases h : p.1 = k
    · simp [mapGet, mapSet, h]
    · simp [mapGet, mapSet, h, ih]

theorem mapGet_set_ne (m : List (String × α)) (k k' : String) (v : α) (h : k' ≠ k) :
    mapGet (mapSet m k v) k' = mapGet m k' := by
  induction m with
  | nil => simp [mapGet, mapSet, Ne.symm h]
  | cons p rest ih =>
    by_cases hp : p.1 = k
    · subst hp
      simp [mapGet, mapSet, Ne.symm h]
    · simp [mapGet, mapSet, hp, ih]

theorem mapSet_mapSet (m : List (String × α)) (k : String) (v w : α) :
    mapSet (mapSet m k v) k w = mapSet m k w := by
  induction m with
  | nil => simp [mapSet]
  | cons p rest ih =>
    by_cases h : p.1 = k <;> simp [mapSet, h, ih]

theorem mapGet_delete_self (m : List (String × α)) (k : String) :
    mapGet (mapDelete m k) k = none := by
  induction m with
  | nil => simp [mapGet, mapDelete]
  | cons p rest ih =>
    by_cases h : p.1 = k
    · simpa [mapDelete, List.filter, h] using ih
    · simpa [mapDelete, List.filter, h, mapGet] using ih

theorem jsRound_eq (q : ℚ) (n : ℤ) (h1 : (n : ℚ) ≤ q + 1/2) (h2 : q + 1/2 < (n : ℚ) + 1) :
    jsRound q = n := by
  unfold jsRound
  rw [Int.floor_eq_iff]
  exact ⟨h1, h2⟩

theorem qOr_some_zero (v : ℚ) : qOr (some v) 0 = v := by
  show (if v = 0 then (0 : ℚ) else v) = v
  split
  · next h => exact h.symm
  · rfl

/-! ## Movement-trail lemmas (for C7 and C8) -/

theorem pushTrail_length_ge (l : List RoutePoint) (p : RoutePoint) (hl : l ≠ []) :
    2 ≤ (pushTrail l p).length := by
  have h1 : 1 ≤ l.length := List.length_pos.mpr hl
  unfold pushTrail
  split
  · next h =>
    simp only [List.length_tail, List.length_append, List.length_cons, List.length_nil] at h ⊢
    omega
  · simp only [List.length_append, List.length_cons, List.length_nil]
    omega

theorem pushTrail_last (l : List RoutePoint) (p d : RoutePoint) (hl : l ≠ []) :
    (pushTrail l p).getD ((pushTrail l p).length - 1) d = p := by
  have h1 : 1 ≤ l.length := List.length_pos.mpr hl
  have hm : (l ++ [p])[l.length]? = some p := List.getElem?_concat_length l p
  unfold pushTrail
  split
  · next h =>
    simp only [List.length_append, List.length_cons, List.length_nil] at h
    rw [← List.drop_one, List.getD_eq_getElem?_getD, List.getElem?_drop, List.length_drop]
    have : 1 + ((l ++ [p]).length - 1 - 1) = l.length := by
      simp only [List.length_append, List.length_cons, List.length_nil]
      omega
    rw [this, hm, Option.getD_some]
  · rw [List.getD_eq_getElem?_getD]
    have : (l ++ [p]).length - 1 = l.length := by
      simp only [List.length_append, List.length_cons, List.length_nil]
      omega
    rw [this, hm, Option.getD_some]

theorem pushTrail_penult (l : List RoutePoint) (p lastPt d : RoutePoint)
    (h : l.getLast? = some lastPt) :
    (pushTrail l p).getD ((pushTrail l p).length - 2) d = lastPt := by
  have hl : l ≠ [] := by
    intro hnil
    rw [hnil] at h
    simp at h
  have h1 : 1 ≤ l.length := List.length_pos.mpr hl
  have hidx : l[l.length - 1]? = some lastPt := by
    rw [← List.getLast?_eq_getElem?]
    exact h
  have hm : (l ++ [p])[l.length - 1]? = some lastPt := by
    rw [List.getElem?_append_left (by omega)]
    exact hidx
  unfold pushTrail
  split
  · next hlen =>
    simp only [List.length_append, List.length_cons, List.length_nil] at hlen
    rw [← List.drop_one, List.getD_eq_getElem?_getD, List.getElem?_drop, List.length_drop]
    have : 1 + ((l ++ [p]).length - 1 - 2) = l.length - 1 := by
      simp only [List.length_append, List.length_cons, List.length_nil]
      omega
    rw [this, hm, Option.getD_some]
  · rw [List.getD_eq_getElem?_getD]
    have : (l ++ [p]).length - 2 = l.length - 1 := by
      simp only [List.length_append, List.length_cons, List.length_nil]
      omega
    rw [this, hm, Option.getD_some]

/-- One `pushTrail` step preserves the suffix-of-all-samples description. -/
theorem pushTrail_drop_step (pts : List RoutePoint) (p : RoutePoint) :
    pushTrail (pts.drop (pts.length - 100)) p =
      (pts ++ [p]).drop ((pts ++ [p]).length - 100) := by
  by_cases h : pts.length ≤ 99
  · have h0 : pts.length - 100 = 0 := by omega
    have h0' : (pts ++ [p]).length - 100 = 0 := by
      simp only [List.length_append, List.length_cons, List.length_nil]
      omega
    rw [h0, h0', List.drop_zero, List.drop_zero]
    unfold pushTrail
    rw [if_neg (by
      simp only [List.length_append, List.length_cons, List.length_nil]
      omega)]
  · have h100 : 100 ≤ pts.length := by omega
    have hdlen : (pts.drop (pts.length - 100)).length = 100 := by
      rw [List.length_drop]
      omega
    have hdne : pts.drop (pts.length - 100) ≠ [] := by
      intro hnil
      rw [hnil] at hdlen
      simp at hdlen
    unfold pushTrail
    rw [if_pos]
    · have h2 : (pts ++ [p]).length - 100 = (pts.length - 100) + 1 := by
        simp only [List.length_append, List.length_cons, List.length_nil]
        omega
      rw [h2, List.drop_append_of_le_length (by omega), ← List.drop_drop,
        List.drop_one, List.tail_append_of_ne_nil hdne]
    · simp only [List.length_append, List.length_cons, List.length_nil, hdlen]
      omega

theorem foldl_pushTrail_drop (samples : List RoutePoint) :
    ∀ pts : List RoutePoint,
      samples.foldl pushTrail (pts.drop (pts.length - 100)) =
        (pts ++ samples).drop ((pts ++ samples).length - 100) := by
  induction samples with
  | nil => intro pts; simp
  | cons s rest ih =>
    intro pts
    rw [List.foldl_cons, pushTrail_drop_step]
    have := ih (pts ++ [s])
    simpa [List.append_assoc] using this

/-- C8 helper: the movement-trail component of `updateDriverMovement` is a
single `pushTrail` step, independent of any ride bookkeeping. -/
theorem updateDriverMovement_hist (dist : Location → Location → ℚ)
    (driverId : String) (location : Location) (now : ℤ) (hist : HistMap)
    (ride : Option Ride) (rides : RideMap) :
    (updateDriverMovement dist driverId location now hist ride rides).1 =
      mapSet hist driverId
        (pushTrail ((mapGet hist driverId).getD [])
          ⟨location.latitude, location.longitude, now⟩) := by
  unfold updateDriverMovement
  cases ride with
  | none => rfl
  | some r =>
    simp only
    split
    · split
      · rfl
      · rfl
    · rfl

/-! ## C8 — movement trail bounded at 100, FIFO eviction -/

/-- C8: after any sequence of location samples a driver's movement trail has at
most 100 entries and equals the suffix of the pushed samples (oldest evicted
first, FIFO); moreover the trail update performed by `updateDriverMovement` is
exactly one `pushTrail` step, independent of the ride bookkeeping, so this
holds for samples recorded with or without an active ride. -/
theorem movement_trail_bounded_fifo :
    (∀ dist driverId location now hist ride rides,
        (updateDriverMovement dist driverId location now hist ride rides).1 =
          mapSet hist driverId
            (pushTrail ((mapGet hist driverId).getD [])
              ⟨location.latitude, location.longitude, now⟩)) ∧
    (∀ samples : List RoutePoint,
        (samples.foldl pushTrail []).length ≤ 100 ∧
        samples.foldl pushTrail [] = samples.drop (samples.length - 100)) := by
  refine ⟨updateDriverMovement_hist, fun samples => ?_⟩
  have h := foldl_pushTrail_drop samples []
  simp only [List.nil_append, List.length_nil, Nat.zero_sub, List.drop_zero] at h
  refine ⟨?_, h⟩
  rw [h, List.length_drop]
  omega

/-! ## C7 — distance accrual from location samples -/

/-- C7: recording a location sample against an active ride always appends the
point to the ride's route; when the segment from the previous recorded point
exceeds 0.01 km it is added to `actualDistance` and `updatedFare` is recomputed
as `calculateFare` of the new total, while a segment of at most 0.01 km leaves
`actualDistance` and `updatedFare` unchanged; consequently the accrued distance
never decreases. -/
theorem record_location_distance_accrual (dist : Location → Location → ℚ)
    (driverId : String) (location : Location) (now : ℤ) (hist : HistMap)
    (r : Ride) (rides : RideMap) (lastPt : RoutePoint)
    (hlast : ((mapGet hist driverId).getD []).getLast? = some lastPt) :
    ∃ r2,
      mapGet (updateDriverMovement dist driverId location now hist (some r) rides).2 r.id =
        some r2 ∧
      r2.route = r.route ++ [⟨location.latitude, location.longitude, now⟩] ∧
      (0.01 < dist lastPt.loc ⟨location.latitude, location.longitude⟩ →
        r2.actualDistance =
          some (qOr r.actualDistance 0 + dist lastPt.loc ⟨location.latitude, location.longitude⟩) ∧
        r2.updatedFare =
          some (calculateFare
            (qOr r.actualDistance 0 + dist lastPt.loc ⟨location.latitude, location.longitude⟩))) ∧
      (dist lastPt.loc ⟨location.latitude, location.longitude⟩ ≤ 0.01 →
        r2.actualDistance = r.actualDistance ∧ r2.updatedFare = r.updatedFare) ∧
      qOr r.actualDistance 0 ≤ qOr r2.actualDistance 0 := by
  have hne : ((mapGet hist driverId).getD []) ≠ [] := by
    intro hnil
    rw [hnil] at hlast
    simp at hlast
  have hlen := pushTrail_length_ge ((mapGet hist driverId).getD [])
    ⟨location.latitude, location.longitude, now⟩ hne
  have hpen := pushTrail_penult ((mapGet hist driverId).getD [])
    ⟨location.latitude, location.longitude, now⟩ lastPt ⟨0, 0, 0⟩ hlast
  have hlast2 := pushTrail_last ((mapGet hist driverId).getD [])
    ⟨location.latitude, location.longitude, now⟩ ⟨0, 0, 0⟩ hne
  unfold updateDriverMovement
  simp only [hpen, hlast2, if_pos hlen, RoutePoint.loc]
  split
  · next hseg =>
    refine ⟨_, mapGet_set_self _ _ _, rfl, fun _ => ⟨rfl, rfl⟩, ?_, ?_⟩
    · intro hle
      exact absurd hseg (not_lt.mpr hle)
    · rw [qOr_some_zero]
      have hpos : (0.01 : ℚ) <
          dist ⟨lastPt.latitude, lastPt.longitude⟩ ⟨location.latitude, location.longitude⟩ := hseg
      linarith
  · next hseg =>
    refine ⟨_, mapGet_set_self _ _ _, rfl, ?_, fun _ => ⟨rfl, rfl⟩, le_refl _⟩
    intro hgt
    exact absurd hgt hseg

/-- Concrete instantiation of the C7 theorem: one prior trail point at the
origin, a 1-km segment, an active ride with no distance accrued yet. -/
theorem record_location_distance_accrual_witness :
    ((mapGet ([("d1", [⟨0, 0, 0⟩])] : HistMap) "d1").getD []).getLast? = some ⟨0, 0, 0⟩ ∧
    ∃ r2,
      mapGet (updateDriverMovement (fun _ _ => 1) "d1" ⟨1, 0⟩ 7
        [("d1", [⟨0, 0, 0⟩])] (some sampleRide) []).2 sampleRide.id = some r2 ∧
      r2.route = sampleRide.route ++ [⟨1, 0, 7⟩] ∧
      (0.01 < (1 : ℚ) →
        r2.actualDistance = some (qOr sampleRide.actualDistance 0 + 1) ∧
        r2.updatedFare = some (calculateFare (qOr sampleRide.actualDistance 0 + 1))) ∧
      ((1 : ℚ) ≤ 0.01 →
        r2.actualDistance = sampleRide.actualDistance ∧
        r2.updatedFare = sampleRide.updatedFare) ∧
      qOr sampleRide.actualDistance 0 ≤ qOr r2.actualDistance 0 :=
  ⟨rfl, record_location_distance_accrual (fun _ _ => 1) "d1" ⟨1, 0⟩ 7
    [("d1", [⟨0, 0, 0⟩])] sampleRide [] ⟨0, 0, 0⟩ rfl⟩

/-! ## C4 — guards of `driver_arrived`, `start_ride`, `complete_ride` -/

/-- C4 counterexample: calling `start_ride` on a ride whose status is
`completed` (not the required `driverArrived`) with the matching driver id
succeeds, overwrites the status to `inProgress` and emits
`ride_action_success`, instead of rejecting the call and leaving the ride
unchanged. -/
theorem start_ride_skips_state_check :
    (mapGet (startRideHandler none "r1" "d1" 7 [("r1", completedRide)]).1 "r1").map
        Ride.status = some "inProgress" ∧
    completedRide.status = "completed" ∧
    completedRide.driverId = some "d1" ∧
    successEmit ∈ (startRideHandler none "r1" "d1" 7 [("r1", completedRide)]).2 := by
  refine ⟨?_, rfl, rfl, ?_⟩ <;> decide

theorem driverArrivedHandler_not_found (uid : Option String) (rideId driverId : String)
    (now : ℤ) (rides : RideMap) (h : mapGet rides rideId = none) :
    driverArrivedHandler uid rideId driverId now rides = (rides, [errorEmit]) := by
  unfold driverArrivedHandler
  rw [h]

theorem driverArrivedHandler_mismatch (uid : Option String) (rideId driverId : String)
    (now : ℤ) (rides : RideMap) (r : Ride) (h : mapGet rides rideId = some r)
    (hne : r.driverId ≠ some driverId) :
    driverArrivedHandler uid rideId driverId now rides = (rides, [errorEmit]) := by
  unfold driverArrivedHandler
  rw [h]
  simp [hne]

theorem driverArrivedHandler_match (uid : Option String) (rideId driverId : String)
    (now : ℤ) (rides : RideMap) (r : Ride) (h : mapGet rides rideId = some r)
    (heq : r.driverId = some driverId) :
    driverArrivedHandler uid rideId driverId now rides =
      (mapSet rides rideId { r with status := "driverArrived", arrivedTime := some now },
        [⟨Target.room ("user:" ++ r.userId), "driver_arrived", PData.unit⟩] ++
        notifyEmits r.userId ++ [successEmit]) := by
  unfold driverArrivedHandler
  rw [h]
  simp [heq]

theorem driverArrivedSecondListener_none (uid : Option String) (driverId rideId : String)
    (now : ℤ) (rides : RideMap) (h : mapGet rides rideId = none) :
    driverArrivedSecondListener uid driverId rideId now rides = (rides, []) := by
  unfold driverArrivedSecondListener
  rw [h]

theorem driverArrivedSecondListener_some (uid : Option String) (driverId rideId : String)
    (now : ℤ) (rides : RideMap) (r : Ride) (h : mapGet rides rideId = some r) :
    driverArrivedSecondListener uid driverId rideId now rides =
      (mapSet rides rideId { r with
          status := "driverArrived"
          arrivalTime := some now
          route := trimRoute r.route
          actualDistance := some 0 },
        [⟨Target.room ("user:" ++ r.userId), "driver_arrived", PData.unit⟩] ++
        notifyEmits r.userId) := by
  unfold driverArrivedSecondListener trimRoute
  rw [h]
  by_cases hr : r.route.length > 0 <;> simp [hr, mapSet_mapSet]

/-- C4 (amended): `start_ride` and `complete_ride` (single listeners) reject —
with a `ride_action_error` delivered only to the caller and the registry left
unchanged — exactly when the ride does not exist or its `driverId` differs
from the payload's; with a matching `driverId` they succeed regardless of the
ride's status, since no predecessor-state check exists.  The `driver_arrived`
event runs two registered listeners: on a missing ride it only yields the
caller-only error, but whenever the ride exists the second listener sets
`driverArrived`, stamps `arrivalTime`, trims the route to its last point,
zeroes `actualDistance` and notifies the rider — even when the payload's
`driverId` does not match the assigned driver, so a rejected arrive call still
mutates the ride. -/
theorem ride_action_guards (uid : Option String) (rideId driverId : String)
    (ap : Option ℚ) (now : ℤ) (rides : RideMap) :
    ((mapGet rides rideId = none ∨
        (∃ r, mapGet rides rideId = some r ∧ r.driverId ≠ some driverId)) →
      startRideHandler uid rideId driverId now rides = (rides, [errorEmit]) ∧
      completeRideHandler uid rideId driverId ap now rides = (rides, [errorEmit])) ∧
    (∀ r, mapGet rides rideId = some r → r.driverId = some driverId →
      (mapGet (startRideHandler uid rideId driverId now rides).1 rideId).map Ride.status =
        some "inProgress" ∧
      (mapGet (completeRideHandler uid rideId driverId ap now rides).1 rideId).map Ride.status =
        some "completed" ∧
      successEmit ∈ (startRideHandler uid rideId driverId now rides).2 ∧
      successEmit ∈ (completeRideHandler uid rideId driverId ap now rides).2) ∧
    (mapGet rides rideId = none →
      driverArrivedEvent uid rideId driverId now rides = (rides, [errorEmit])) ∧
    (∀ r, mapGet rides rideId = some r → r.driverId ≠ some driverId →
      errorEmit ∈ (driverArrivedEvent uid rideId driverId now rides).2 ∧
      (mapGet (driverArrivedEvent uid rideId driverId now rides).1 rideId).map
          (fun r2 => (r2.status, r2.actualDistance, r2.route)) =
        some ("driverArrived", some 0, trimRoute r.route) ∧
      (⟨Target.room ("user:" ++ r.userId), "driver_arrived", PData.unit⟩ : Emit) ∈
        (driverArrivedEvent uid rideId driverId now rides).2) ∧
    (∀ r, mapGet rides rideId = some r → r.driverId = some driverId →
      (mapGet (driverArrivedEvent uid rideId driverId now rides).1 rideId).map
          (fun r2 => (r2.status, r2.actualDistance, r2.route)) =
        some ("driverArrived", some 0, trimRoute r.route) ∧
      successEmit ∈ (driverArrivedEvent uid rideId driverId now rides).2) := by
  refine ⟨?_, ?_, ?_, ?_, ?_⟩
  · rintro (h | ⟨r, h, hne⟩)
    · constructor
      · unfold startRideHandler
        rw [h]
      · unfold completeRideHandler
        rw [h]
    · constructor
      · unfold startRideHandler
        rw [h]
        simp [hne]
      · unfold completeRideHandler
        rw [h]
        simp [hne]
  · intro r h hdr
    unfold startRideHandler completeRideHandler
    rw [h]
    simp [hdr, mapGet_set_self, successEmit, notifyEmits]
  · intro h
    unfold driverArrivedEvent
    rw [driverArrivedHandler_not_found uid rideId driverId now rides h]
    simp [driverArrivedSecondListener_none uid driverId rideId now rides h]
  · intro r h hne
    unfold driverArrivedEvent
    rw [driverArrivedHandler_mismatch uid rideId driverId now rides r h hne]
    simp [driverArrivedSecondListener_some uid driverId rideId now rides r h,
      mapGet_set_self, errorEmit]
  · intro r h hdr
    unfold driverArrivedEvent
    rw [driverArrivedHandler_match uid rideId driverId now rides r h hdr]
    have h2 : mapGet (mapSet rides rideId
        { r with status := "driverArrived", arrivedTime := some now }) rideId =
        some { r with status := "driverArrived", arrivedTime := some now } :=
      mapGet_set_self _ _ _
    simp [driverArrivedSecondListener_some uid driverId rideId now _ _ h2,
      mapSet_mapSet, mapGet_set_self, successEmit]

/-- Concrete instantiation of the C4 guard theorem: an unknown ride id is
rejected by start/complete with a caller-only error and no state change, and
the composed `driver_arrived` event likewise only errors. -/
theorem ride_action_guards_witness :
    startRideHandler none "rX" "d1" 7 [] = ([], [errorEmit]) ∧
    completeRideHandler none "rX" "d1" none 7 [] = ([], [errorEmit]) ∧
    driverArrivedEvent none "rX" "d1" 7 [] = ([], [errorEmit]) :=
  ⟨((ride_action_guards none "rX" "d1" none 7 []).1 (Or.inl rfl)).1,
    ((ride_action_guards none "rX" "d1" none 7 []).1 (Or.inl rfl)).2,
    (ride_action_guards none "rX" "d1" none 7 []).2.2.1 rfl⟩

/-! ## C1 — acceptance race: lemmas about `driver_accept_ride` -/

theorem countEvent_append (event : String) (es1 es2 : List Emit) :
    countEvent event (es1 ++ es2) = countEvent event es1 + countEvent event es2 := by
  unfold countEvent
  rw [List.filter_append, List.length_append]

theorem driverAcceptRide_not_found (uid : Option String) (rideId driverId : String)
    (dd : DriverData) (now : ℤ) (rides : RideMap)
    (h : mapGet rides rideId = none) :
    driverAcceptRide uid rideId driverId dd now rides = (rides, [errorEmit]) := by
  unfold driverAcceptRide
  rw [h]

theorem driverAcceptRide_not_searching (uid : Option String) (rideId driverId : String)
    (dd : DriverData) (now : ℤ) (rides : RideMap) (r : Ride)
    (h : mapGet rides rideId = some r) (hs : r.status ≠ "searching") :
    driverAcceptRide uid rideId driverId dd now rides = (rides, [errorEmit]) := by
  unfold driverAcceptRide
  rw [h]
  simp [hs]

theorem driverAcceptRide_not_candidate (uid : Option String) (rideId driverId : String)
    (dd : DriverData) (now : ℤ) (rides : RideMap) (r : Ride)
    (h : mapGet rides rideId = some r) (hc : driverId ∉ candidatesOf r) :
    driverAcceptRide uid rideId driverId dd now rides = (rides, [errorEmit]) := by
  unfold driverAcceptRide
  rw [h]
  by_cases hs : r.status = "searching"
  · cases hpd : r.potentialDrivers with
    | none => simp [hs, hpd]
    | some cands =>
      have hc' : driverId ∉ cands := by
        unfold candidatesOf at hc
        rw [hpd] at hc
        simpa using hc
      simp [hs, hpd, hc']
  · simp [hs]

/-- The emissions of a successful acceptance. -/
def acceptEmits (cands : List String) (driverId riderId : String) : List Emit :=
  (cands.foldr (fun c acc =>
    (if c ≠ driverId
     then [⟨Target.room ("user:" ++ c), "ride_taken", PData.unit⟩]
     else []) ++ acc) []) ++
  [⟨Target.room ("user:" ++ riderId), "driver_accepted", PData.unit⟩] ++
  notifyEmits riderId ++ [successEmit]

theorem driverAcceptRide_valid (uid : Option String) (rideId driverId : String)
    (dd : DriverData) (now : ℤ) (rides : RideMap) (r : Ride) (cands : List String)
    (h : mapGet rides rideId = some r) (hs : r.status = "searching")
    (hpd : r.potentialDrivers = some cands) (hc : driverId ∈ cands) :
    driverAcceptRide uid rideId driverId dd now rides =
      (mapSet rides rideId
        { r with
          driverId := some driverId
          driver := some dd
          status := "driverAccepted"
          acceptedTime := some now },
        acceptEmits cands driverId r.userId) := by
  unfold driverAcceptRide acceptEmits
  rw [h]
  simp [hs, hpd, hc]

theorem takenFold_count (event : String) (hne : event ≠ "ride_taken")
    (cands : List String) (driverId : String) :
    countEvent event (cands.foldr (fun c acc =>
      (if c ≠ driverId
       then [⟨Target.room ("user:" ++ c), "ride_taken", PData.unit⟩]
       else []) ++ acc) []) = 0 := by
  induction cands with
  | nil => rfl
  | cons c rest ih =>
    simp only [List.foldr_cons, countEvent_append, ih]
    by_cases hcd : c ≠ driverId <;> simp [hcd, countEvent, Ne.symm hne]

theorem takenFold_mem (cands : List String) (driverId c : String)
    (hc : c ∈ cands) (hne : c ≠ driverId) :
    (⟨Target.room ("user:" ++ c), "ride_taken", PData.unit⟩ : Emit) ∈
      cands.foldr (fun x acc =>
        (if x ≠ driverId
         then [⟨Target.room ("user:" ++ x), "ride_taken", PData.unit⟩]
         else []) ++ acc) [] := by
  induction cands with
  | nil => cases hc
  | cons x rest ih =>
    simp only [List.foldr_cons, List.mem_append]
    rcases List.mem_cons.mp hc with hx | hx
    · subst hx
      exact Or.inl (by simp [hne])
    · exact Or.inr (ih hx)

theorem acceptEmits_success_count (cands : List String) (driverId riderId : String) :
    countEvent "ride_action_success" (acceptEmits cands driverId riderId) = 1 := by
  unfold acceptEmits
  rw [countEvent_append, countEvent_append, countEvent_append,
    takenFold_count _ (by decide)]
  unfold notifyEmits
  by_cases hr : riderId = "" <;> simp [hr, countEvent, successEmit]

theorem errorEmit_success_count : countEvent "ride_action_success" [errorEmit] = 0 := by
  decide

/-- Splitting one attempt off a `runAccepts` run. -/
theorem runAccepts_go (rideId : String) (attempts : List (String × DriverData × ℤ)) :
    ∀ (rides : RideMap) (es : List Emit),
      attempts.foldl (fun acc a =>
        let res := driverAcceptRide none rideId a.1 a.2.1 a.2.2 acc.1
        (res.1, acc.2 ++ res.2)) (rides, es) =
      ((runAccepts rideId attempts rides).1,
        es ++ (runAccepts rideId attempts rides).2) := by
  induction attempts with
  | nil => intro rides es; simp [runAccepts]
  | cons a rest ih =>
    intro rides es
    unfold runAccepts
    simp only [List.foldl_cons]
    rw [ih, ih]
    simp [List.append_assoc]

theorem runAccepts_cons (rideId : String) (a : String × DriverData × ℤ)
    (rest : List (String × DriverData × ℤ)) (rides : RideMap) :
    runAccepts rideId (a :: rest) rides =
      ((runAccepts rideId rest (driverAcceptRide none rideId a.1 a.2.1 a.2.2 rides).1).1,
        (driverAcceptRide none rideId a.1 a.2.1 a.2.2 rides).2 ++
          (runAccepts rideId rest (driverAcceptRide none rideId a.1 a.2.1 a.2.2 rides).1).2) := by
  unfold runAccepts
  simp only [List.foldl_cons]
  rw [runAccepts_go]
  simp [runAccepts]

/-- Once the ride has left `searching`, every further attempt is rejected
without touching the registry and without a success emission. -/
theorem runAccepts_stuck (rideId : String) (attempts : List (String × DriverData × ℤ)) :
    ∀ (rides : RideMap) (r : Ride),
      mapGet rides rideId = some r → r.status ≠ "searching" →
      (runAccepts rideId attempts rides).1 = rides ∧
      countEvent "ride_action_success" (runAccepts rideId attempts rides).2 = 0 := by
  induction attempts with
  | nil => intro rides r h hs; exact ⟨rfl, rfl⟩
  | cons a rest ih =>
    intro rides r h hs
    rw [runAccepts_cons, driverAcceptRide_not_searching none rideId a.1 a.2.1 a.2.2 rides r h hs]
    have := ih rides r h hs
    simp only [countEvent_append]
    exact ⟨this.1, by rw [errorEmit_success_count, this.2]⟩

/-- The heart of C1's sequential run: the first valid attempt (and only it)
wins, later attempts leave the ride untouched. -/
theorem runAccepts_first_valid (rideId : String) (attempts : List (String × DriverData × ℤ)) :
    ∀ (rides : RideMap) (r : Ride),
      mapGet rides rideId = some r → r.status = "searching" →
      match attempts.find? (fun a => decide (a.1 ∈ candidatesOf r)) with
      | none =>
          (runAccepts rideId attempts rides).1 = rides ∧
          countEvent "ride_action_success" (runAccepts rideId attempts rides).2 = 0
      | some a =>
          mapGet (runAccepts rideId attempts rides).1 rideId =
            some { r with
              driverId := some a.1
              driver := some a.2.1
              status := "driverAccepted"
              acceptedTime := some a.2.2 } ∧
          countEvent "ride_action_success" (runAccepts rideId attempts rides).2 = 1 := by
  induction attempts with
  | nil => intro rides r h hs; exact ⟨rfl, rfl⟩
  | cons a rest ih =>
    intro rides r h hs
    by_cases hmem : a.1 ∈ candidatesOf r
    · rw [List.find?_cons_of_pos _ (by simpa using hmem)]
      obtain ⟨cands, hpd⟩ : ∃ cands, r.potentialDrivers = some cands := by
        cases hpd : r.potentialDrivers with
        | none =>
          unfold candidatesOf at hmem
          rw [hpd] at hmem
          simp at hmem
        | some cands => exact ⟨cands, rfl⟩
      have hcc : a.1 ∈ cands := by
        unfold candidatesOf at hmem
        rw [hpd] at hmem
        simpa using hmem
      rw [runAccepts_cons,
        driverAcceptRide_valid none rideId a.1 a.2.1 a.2.2 rides r cands h hs hpd hcc]
      set newRide : Ride := { r with
        driverId := some a.1
        driver := some a.2.1
        status := "driverAccepted"
        acceptedTime := some a.2.2 } with hnr
      have hget : mapGet (mapSet rides rideId newRide) rideId = some newRide :=
        mapGet_set_self rides rideId newRide
      have hstuck := runAccepts_stuck rideId rest (mapSet rides rideId newRide) newRide hget
        (by rw [hnr]; intro hcontra; simp at hcontra)
      refine ⟨?_, ?_⟩
      · rw [hstuck.1]
        exact hget
      · simp only [countEvent_append]
        rw [acceptEmits_success_count, hstuck.2]
    · rw [List.find?_cons_of_neg _ (by simpa using hmem)]
      rw [runAccepts_cons,
        driverAcceptRide_not_candidate none rideId a.1 a.2.1 a.2.2 rides r h hmem]
      have := ih rides r h hs
      revert this
      cases rest.find? (fun a => decide (a.1 ∈ candidatesOf r)) with
      | none =>
        intro this
        simp only [countEvent_append]
        exact ⟨this.1, by rw [errorEmit_success_count, this.2]⟩
      | some b =>
        intro this
        simp only [countEvent_append]
        exact ⟨this.1, by rw [errorEmit_success_count, this.2]⟩

/-- C1: `driver_accept_ride` succeeds if and only if the ride exists, its
status is `searching` and the driver is in the candidate set; on success the
ride's `driverId` becomes the accepting driver, the status `driverAccepted`
with `acceptedTime` recorded, and every other candidate receives `ride_taken`;
an unsuccessful call leaves the registry unchanged.  For any sequence of
accept calls on the same ride processed one at a time, exactly the first valid
call succeeds (exactly one `ride_action_success` across the run) and the
ride's final `driverId` is that caller; every later attempt is rejected
without changing the ride. -/
theorem accept_first_valid_wins :
    (∀ (uid : Option String) (rideId driverId : String) (dd : DriverData) (now : ℤ)
        (rides : RideMap),
      successEmit ∈ (driverAcceptRide uid rideId driverId dd now rides).2 ↔
        ∃ r, mapGet rides rideId = some r ∧ r.status = "searching" ∧
          driverId ∈ candidatesOf r) ∧
    (∀ (uid : Option String) (rideId driverId : String) (dd : DriverData) (now : ℤ)
        (rides : RideMap) (r : Ride),
      mapGet rides rideId = some r → r.status = "searching" →
      driverId ∈ candidatesOf r →
      mapGet (driverAcceptRide uid rideId driverId dd now rides).1 rideId =
        some { r with
          driverId := some driverId
          driver := some dd
          status := "driverAccepted"
          acceptedTime := some now } ∧
      (∀ c ∈ candidatesOf r, c ≠ driverId →
        (⟨Target.room ("user:" ++ c), "ride_taken", PData.unit⟩ : Emit) ∈
          (driverAcceptRide uid rideId driverId dd now rides).2)) ∧
    (∀ (uid : Option String) (rideId driverId : String) (dd : DriverData) (now : ℤ)
        (rides : RideMap),
      successEmit ∉ (driverAcceptRide uid rideId driverId dd now rides).2 →
      (driverAcceptRide uid rideId driverId dd now rides).1 = rides) ∧
    (∀ (rideId : String) (attempts : List (String × DriverData × ℤ))
        (rides : RideMap) (r : Ride),
      mapGet rides rideId = some r → r.status = "searching" →
      match attempts.find? (fun a => decide (a.1 ∈ candidatesOf r)) with
      | none =>
          (runAccepts rideId attempts rides).1 = rides ∧
          countEvent "ride_action_success" (runAccepts rideId attempts rides).2 = 0
      | some a =>
          mapGet (runAccepts rideId attempts rides).1 rideId =
            some { r with
              driverId := some a.1
              driver := some a.2.1
              status := "driverAccepted"
              acceptedTime := some a.2.2 } ∧
          countEvent "ride_action_success" (runAccepts rideId attempts rides).2 = 1) := by
  have hvalid : ∀ (uid : Option String) (rideId driverId : String) (dd : DriverData)
      (now : ℤ) (rides : RideMap) (r : Ride),
      mapGet rides rideId = some r → r.status = "searching" →
      driverId ∈ candidatesOf r →
      ∃ cands, r.potentialDrivers = some cands ∧ driverId ∈ cands ∧
        driverAcceptRide uid rideId driverId dd now rides =
          (mapSet rides rideId
            { r with
              driverId := some driverId
              driver := some dd
              status := "driverAccepted"
              acceptedTime := some now },
            acceptEmits cands driverId r.userId) := by
    intro uid rideId driverId dd now rides r h hs hc
    have hex : ∃ cands, r.potentialDrivers = some cands ∧ driverId ∈ cands := by
      cases hpd : r.potentialDrivers with
      | none =>
        unfold candidatesOf at hc
        rw [hpd] at hc
        simp at hc
      | some cands =>
        refine ⟨cands, rfl, ?_⟩
        unfold candidatesOf at hc
        rw [hpd] at hc
        simpa using hc
    obtain ⟨cands, hpd, hcc⟩ := hex
    exact ⟨cands, hpd, hcc,
      driverAcceptRide_valid uid rideId driverId dd now rides r cands h hs hpd hcc⟩
  refine ⟨?_, ?_, ?_, ?_⟩
  · intro uid rideId driverId dd now rides
    constructor
    · intro hmem
      cases h : mapGet rides rideId with
      | none =>
        rw [driverAcceptRide_not_found uid rideId driverId dd now rides h] at hmem
        simp [successEmit, errorEmit] at hmem
      | some r =>
        by_cases hs : r.status = "searching"
        · by_cases hc : driverId ∈ candidatesOf r
          · exact ⟨r, rfl, hs, hc⟩
          · rw [driverAcceptRide_not_candidate uid rideId driverId dd now rides r h hc] at hmem
            simp [successEmit, errorEmit] at hmem
        · rw [driverAcceptRide_not_searching uid rideId driverId dd now rides r h hs] at hmem
          simp [successEmit, errorEmit] at hmem
    · rintro ⟨r, h, hs, hc⟩
      obtain ⟨cands, hpd, hcc, heq⟩ := hvalid uid rideId driverId dd now rides r h hs hc
      rw [heq]
      simp [acceptEmits]
  · intro uid rideId driverId dd now rides r h hs hc
    obtain ⟨cands, hpd, hcc, heq⟩ := hvalid uid rideId driverId dd now rides r h hs hc
    rw [heq]
    refine ⟨mapGet_set_self _ _ _, ?_⟩
    intro c hcm hcne
    have hcands : c ∈ cands := by
      unfold candidatesOf at hcm
      rw [hpd] at hcm
      simpa using hcm
    unfold acceptEmits
    simp only [List.mem_append]
    exact Or.inl (Or.inl (Or.inl (takenFold_mem cands driverId c hcands hcne)))
  · intro uid rideId driverId dd now rides hnot
    cases h : mapGet rides rideId with
    | none => rw [driverAcceptRide_not_found uid rideId driverId dd now rides h]
    | some r =>
      by_cases hs : r.status = "searching"
      · by_cases hc : driverId ∈ candidatesOf r
        · obtain ⟨cands, hpd, hcc, heq⟩ := hvalid uid rideId driverId dd now rides r h hs hc
          rw [heq] at hnot
          exact absurd (by simp [acceptEmits]) hnot
        · rw [driverAcceptRide_not_candidate uid rideId driverId dd now rides r h hc]
      · rw [driverAcceptRide_not_searching uid rideId driverId dd now rides r h hs]
  · exact fun rideId attempts => runAccepts_first_valid rideId attempts

/-- Concrete instantiation of C1: driver d2 (a candidate of the searching
ride) accepts, the ride is assigned to d2 and d1 receives `ride_taken`. -/
theorem accept_first_valid_wins_witness :
    mapGet [("r1", searchingRide)] "r1" = some searchingRide ∧
    searchingRide.status = "searching" ∧
    "d2" ∈ candidatesOf searchingRide ∧
    mapGet (driverAcceptRide none "r1" "d2" sampleDriverData 5 [("r1", searchingRide)]).1 "r1" =
      some { searchingRide with
        driverId := some "d2"
        driver := some sampleDriverData
        status := "driverAccepted"
        acceptedTime := some 5 } ∧
    (∀ c ∈ candidatesOf searchingRide, c ≠ "d2" →
      (⟨Target.room ("user:" ++ c), "ride_taken", PData.unit⟩ : Emit) ∈
        (driverAcceptRide none "r1" "d2" sampleDriverData 5 [("r1", searchingRide)]).2) :=
  ⟨rfl, rfl, by decide,
    (accept_first_valid_wins.2.1 none "r1" "d2" sampleDriverData 5 [("r1", searchingRide)]
      searchingRide rfl rfl (by decide)).1,
    (accept_first_valid_wins.2.1 none "r1" "d2" sampleDriverData 5 [("r1", searchingRide)]
      searchingRide rfl rfl (by decide)).2⟩

/-! ## C2 / C5 — `ride_request` dispatch and fare computation -/

theorem roomTargets_append (event : String) (es1 es2 : List Emit) :
    roomTargets event (es1 ++ es2) = roomTargets event es1 ++ roomTargets event es2 := by
  unfold roomTargets
  induction es1 with
  | nil => simp
  | cons e rest ih =>
    simp only [List.cons_append, List.foldr_cons, ih]
    cases e.target with
    | room rm => by_cases he : e.event = event <;> simp [he]
    | caller => rfl
    | sock s => rfl

theorem roomTargets_offer (drivers : ClientMap) :
    roomTargets "ride_assigned" (drivers.foldr (fun p acc =>
      [⟨Target.room ("user:" ++ p.1), "ride_assigned", PData.unit⟩] ++
      (if p.2.socketId = "" then []
       else [⟨Target.sock p.2.socketId, "ride_assigned", PData.unit⟩]) ++
      notifyEmits p.1 ++ acc) []) = drivers.map (fun p => "user:" ++ p.1) := by
  induction drivers with
  | nil => rfl
  | cons p rest ih =>
    simp only [List.foldr_cons, roomTargets_append, ih]
    by_cases hs : p.2.socketId = "" <;> by_cases hn : p.1 = "" <;>
      simp [roomTargets, notifyEmits, hs, hn]

/-- C2 (amended): on a valid `ride_request`, when no driver is connected the
rider gets an immediate `ride_request_error`, no timeout timer is armed and no
ride remains in the registry; when connected drivers exist the offer is
broadcast (as `ride_assigned` room emissions) exactly to the connected
drivers, which become the candidate set, and the timer is armed.  The
driver's `isOnline` flag is not consulted. -/
theorem ride_request_dispatch (dist : Location → Location → ℚ) (uid : Option String)
    (userId : String) (pickup dropoff : Location) (rideType paymentMethod : Option String)
    (ep ed : Option ℚ) (vd : Option String) (now : ℤ) (clients : ClientMap)
    (rides : RideMap) (hu : userId ≠ "") :
    (connectedDrivers clients = [] →
      (rideRequestHandler dist uid userId (some pickup) (some dropoff) rideType
          paymentMethod ep ed vd now clients rides).timerSet = false ∧
      (⟨Target.caller, "ride_request_error", PData.unit⟩ : Emit) ∈
        (rideRequestHandler dist uid userId (some pickup) (some dropoff) rideType
          paymentMethod ep ed vd now clients rides).emits ∧
      mapGet (rideRequestHandler dist uid userId (some pickup) (some dropoff) rideType
          paymentMethod ep ed vd now clients rides).rides
        ("ride_" ++ toString now ++ "_" ++ userId) = none) ∧
    (connectedDrivers clients ≠ [] →
      (rideRequestHandler dist uid userId (some pickup) (some dropoff) rideType
          paymentMethod ep ed vd now clients rides).timerSet = true ∧
      roomTargets "ride_assigned"
          (rideRequestHandler dist uid userId (some pickup) (some dropoff) rideType
            paymentMethod ep ed vd now clients rides).emits =
        (connectedDrivers clients).map (fun p => "user:" ++ p.1) ∧
      (mapGet (rideRequestHandler dist uid userId (some pickup) (some dropoff) rideType
          paymentMethod ep ed vd now clients rides).rides
          ("ride_" ++ toString now ++ "_" ++ userId)).map
        (fun r => r.potentialDrivers) =
        some (some ((connectedDrivers clients).map Prod.fst))) := by
  unfold rideRequestHandler
  rw [if_neg (by simp [hu])]
  by_cases hcd : connectedDrivers clients = []
  · rw [if_pos hcd]
    refine ⟨fun _ => ⟨rfl, by simp, mapGet_delete_self _ _⟩, fun hne => absurd hcd hne⟩
  · rw [if_neg hcd]
    refine ⟨fun habs => absurd habs hcd, fun _ => ⟨rfl, ?_, ?_⟩⟩
    · rw [roomTargets_append, roomTargets_offer]
      simp [roomTargets, notifyEmits, hu]
    · rw [mapGet_set_self]
      rfl

/-- Concrete instantiation of C2: with an empty client registry the request is
rejected, no timer is armed and the ride entry is removed. -/
theorem ride_request_dispatch_witness :
    (rideRequestHandler (fun _ _ => 5) none "u1" (some ⟨1, 2⟩) (some ⟨3, 4⟩) none none
        (some 100) (some 5) none 0 [] []).timerSet = false ∧
    (⟨Target.caller, "ride_request_error", PData.unit⟩ : Emit) ∈
      (rideRequestHandler (fun _ _ => 5) none "u1" (some ⟨1, 2⟩) (some ⟨3, 4⟩) none none
        (some 100) (some 5) none 0 [] []).emits ∧
    mapGet (rideRequestHandler (fun _ _ => 5) none "u1" (some ⟨1, 2⟩) (some ⟨3, 4⟩) none none
        (some 100) (some 5) none 0 [] []).rides ("ride_" ++ toString (0 : ℤ) ++ "_" ++ "u1") =
      none :=
  (ride_request_dispatch (fun _ _ => 5) none "u1" ⟨1, 2⟩ ⟨3, 4⟩ none none
    (some 100) (some 5) none 0 [] [] (by decide)).1 rfl

/-- C2 counterexample: a driver that is connected but offline
(`isOnline = false`).  The claim requires an immediate `ride_request_error`,
no timer and no registry entry, since no driver is both connected and online;
the code instead broadcasts to the offline driver, arms the timer and keeps
the ride, because the handler filters on `connected` only. -/
theorem ride_request_offline_driver_counterexample :
    (mapGet [("d1", { sampleDriverClient with isOnline := false })] "d1").map Client.isOnline =
      some false ∧
    (rideRequestHandler (fun _ _ => 5) none "u1" (some ⟨1, 2⟩) (some ⟨3, 4⟩) none none
        (some 100) (some 5) none 0 [("d1", { sampleDriverClient with isOnline := false })]
        []).timerSet = true ∧
    (mapGet (rideRequestHandler (fun _ _ => 5) none "u1" (some ⟨1, 2⟩) (some ⟨3, 4⟩) none none
        (some 100) (some 5) none 0 [("d1", { sampleDriverClient with isOnline := false })]
        []).rides ("ride_" ++ toString (0 : ℤ) ++ "_" ++ "u1")).isSome = true ∧
    (⟨Target.caller, "ride_request_error", PData.unit⟩ : Emit) ∉
      (rideRequestHandler (fun _ _ => 5) none "u1" (some ⟨1, 2⟩) (some ⟨3, 4⟩) none none
        (some 100) (some 5) none 0 [("d1", { sampleDriverClient with isOnline := false })]
        []).emits := by
  refine ⟨rfl, rfl, rfl, ?_⟩
  decide

/-- C5 (amended): a ride created by the `ride_request` handler stores
`estimatedPrice = estimatedPrice || calculateFare(estimatedDistance || dist(pickup, dropoff))`:
the caller-supplied price wins when truthy, otherwise the rounded per-km fare
of the (caller-supplied or computed) distance; no minimum-fare floor is
applied by the socket engine. -/
theorem ride_request_fare (dist : Location → Location → ℚ) (uid : Option String)
    (userId : String) (pickup dropoff : Location) (rideType paymentMethod : Option String)
    (ep ed : Option ℚ) (vd : Option String) (now : ℤ) (clients : ClientMap)
    (rides : RideMap) (hu : userId ≠ "") (hcd : connectedDrivers clients ≠ []) :
    (mapGet (rideRequestHandler dist uid userId (some pickup) (some dropoff) rideType
        paymentMethod ep ed vd now clients rides).rides
        ("ride_" ++ toString now ++ "_" ++ userId)).map
      (fun r => (r.estimatedPrice, r.estimatedDistance, r.status)) =
      some (qOr ep (calculateFare (qOr ed (dist pickup dropoff))),
        qOr ed (dist pickup dropoff), "searching") := by
  unfold rideRequestHandler
  rw [if_neg (by simp [hu]), if_neg hcd, mapGet_set_self]
  rfl

/-- Concrete instantiation of C5 (amended): a connected driver exists, the
caller supplies price 100 and distance 5, and the stored ride carries them. -/
theorem ride_request_fare_witness :
    (mapGet (rideRequestHandler (fun _ _ => 5) none "u1" (some ⟨1, 2⟩) (some ⟨3, 4⟩) none none
        (some 100) (some 5) none 0 [("d1", sampleDriverClient)] []).rides
        ("ride_" ++ toString (0 : ℤ) ++ "_" ++ "u1")).map
      (fun r => (r.estimatedPrice, r.estimatedDistance, r.status)) =
      some (100, 5, "searching") :=
  ride_request_fare (fun _ _ => 5) none "u1" ⟨1, 2⟩ ⟨3, 4⟩ none none
    (some 100) (some 5) none 0 [("d1", sampleDriverClient)] [] (by decide) (by decide)

/-- C5 counterexample: with a 0.1 km estimated distance and no caller price,
the stored `estimatedPrice` is `calculateFare(0.1) = 2`, not
`max(fare, minimumFare) = 50`: the socket engine never applies the
minimum-fare floor of `maps.config.js`. -/
theorem ride_request_no_minimum_fare :
    (mapGet (rideRequestHandler (fun _ _ => 5) none "u1" (some ⟨1, 2⟩) (some ⟨3, 4⟩) none none
        none (some (1/10)) none 0 [("d1", sampleDriverClient)] []).rides
        ("ride_" ++ toString (0 : ℤ) ++ "_" ++ "u1")).map Ride.estimatedPrice = some 2 ∧
    calculateFare (1/10) = 2 ∧
    max (calculateFare (1/10)) MINIMUM_FARE = 50 ∧
    (2 : ℚ) ≠ 50 := by
  have hfare : calculateFare (1/10) = 2 := by
    unfold calculateFare FARE_PER_KM
    rw [jsRound_eq ((1 : ℚ)/10 * 20) 2 (by norm_num) (by norm_num)]
    norm_num
  refine ⟨?_, hfare, by rw [hfare]; unfold MINIMUM_FARE; norm_num, by norm_num⟩
  unfold rideRequestHandler
  rw [if_neg (by simp), if_neg (by simp [connectedDrivers, sampleDriverClient]),
    mapGet_set_self]
  simp only [Option.map_some]
  rw [show qOr none (calculateFare (qOr (some (1/10))
      ((fun _ _ => (5 : ℚ)) ((some (⟨1, 2⟩ : Location)).getD ⟨0, 0⟩)
        ((some (⟨3, 4⟩ : Location)).getD ⟨0, 0⟩)))) =
      calculateFare (qOr (some (1/10)) 5) from rfl]
  rw [show qOr (some ((1 : ℚ)/10)) 5 = 1/10 by
    show (if (1/10 : ℚ) = 0 then (5 : ℚ) else 1/10) = 1/10
    rw [if_neg (by norm_num)]]
  rw [hfare]
  rfl

/-! ## C3 — driver_offline notification on online→offline edges -/

/-- C3 (amended): a `driver_status_update` that flips a driver's online flag
from true to false while the driver holds an active ride sends exactly one
`driver_offline` notification, addressed to that ride's rider; no such
notification is emitted when the flag was not previously true or when there is
no active ride.  A disconnection also forces `online = false` but emits
nothing at all, so no `driver_offline` is sent on that path. -/
theorem driver_offline_notification (uid : Option String) (sid : String)
    (driverId : String) (isOnline : Bool) (location : Option Location) (now : ℤ)
    (clients : ClientMap) (dlocs : DriverLocMap) (rides : RideMap)
    (hd : driverId ≠ "") :
    countEvent "driver_offline"
        (driverStatusUpdate uid sid driverId isOnline location now clients dlocs rides).emits =
      (if ((mapGet clients driverId).map Client.isOnline).getD false = true ∧
          isOnline = false ∧ (findActiveRide rides driverId).isSome = true
       then 1 else 0) ∧
    (∀ r, findActiveRide rides driverId = some r →
      ((mapGet clients driverId).map Client.isOnline).getD false = true →
      isOnline = false →
      (⟨Target.room ("user:" ++ r.userId), "driver_offline", PData.unit⟩ : Emit) ∈
        (driverStatusUpdate uid sid driverId isOnline location now clients dlocs rides).emits) ∧
    (∀ (uid2 : Option String) (now2 : ℤ) (clients2 : ClientMap),
      (disconnectHandler uid2 now2 clients2).2 = []) := by
  refine ⟨?_, ?_, fun uid2 now2 clients2 => ?_⟩
  · unfold driverStatusUpdate
    rw [if_neg hd]
    cases hm : mapGet clients driverId with
    | none =>
      cases hfa : findActiveRide rides driverId <;>
        simp [countEvent, hfa]
    | some c =>
      by_cases hw : c.isOnline <;> cases ho : isOnline <;>
        cases hfa : findActiveRide rides driverId <;>
          simp [countEvent, hw, hfa]
  · intro r hfa hw ho
    unfold driverStatusUpdate
    rw [if_neg hd]
    cases hm : mapGet clients driverId with
    | none =>
      rw [hm] at hw
      simp at hw
    | some c =>
      have hw2 : c.isOnline = true := by
        rw [hm] at hw
        simpa using hw
      simp [hw2, ho, hfa]
  · unfold disconnectHandler
    cases uid2 with
    | none => rfl
    | some u =>
      cases hm : mapGet clients2 u with
      | none => simp [hm]
      | some c => simp [hm]

/-- Concrete instantiation of C3 (amended): an online driver with an
in-progress ride is reported offline via `driver_status_update`; the rider of
the active ride receives `driver_offline`. -/
theorem driver_offline_notification_witness :
    (⟨Target.room ("user:" ++
        ({ sampleRide with driverId := some "d1", status := "inProgress" } : Ride).userId),
      "driver_offline", PData.unit⟩ : Emit) ∈
      (driverStatusUpdate none "s9" "d1" false none 5 [("d1", sampleDriverClient)] []
        [("r1", { sampleRide with driverId := some "d1", status := "inProgress" })]).emits :=
  (driver_offline_notification none "s9" "d1" false none 5 [("d1", sampleDriverClient)] []
      [("r1", { sampleRide with driverId := some "d1", status := "inProgress" })]
      (by decide)).2.1
    { sampleRide with driverId := some "d1", status := "inProgress" } rfl (by decide) rfl

/-- C3 counterexample: a connected online driver with an in-progress ride
disconnects; the flag transitions from true to false and an active ride
exists, yet the disconnect handler emits nothing — in particular no
`driver_offline` reaches the rider, contradicting the claim that the
notification is sent whether the transition comes from `driver_status_update`
or from disconnection. -/
theorem disconnect_no_driver_offline :
    (mapGet [("d1", sampleDriverClient)] "d1").map Client.isOnline = some true ∧
    (mapGet (disconnectHandler (some "d1") 5 [("d1", sampleDriverClient)]).1 "d1").map
        Client.isOnline = some false ∧
    (findActiveRide [("r1", { sampleRide with driverId := some "d1", status := "inProgress" })]
        "d1").isSome = true ∧
    (disconnectHandler (some "d1") 5 [("d1", sampleDriverClient)]).2 = [] := by
  exact ⟨rfl, rfl, rfl, rfl⟩

/-! ## C6 — completion fares -/

theorem qOr_nonneg_pos (x : Option ℚ) (y : ℚ) (hx : ∀ v, x = some v → 0 ≤ v) :
    qOr x y = posOr x y := by
  cases x with
  | none => rfl
  | some v =>
    have hv := hx v rfl
    by_cases h0 : v = 0
    · subst h0
      simp [qOr, posOr]
    · have hpos : 0 < v := lt_of_le_of_ne hv (Ne.symm h0)
      simp [qOr, posOr, h0, hpos]

/-- C6 (amended): the `complete_ride` handler (driver-facing completion) sets
`actualPrice = actualPrice || estimatedPrice` — i.e. the caller-supplied value
when truthy — and marks the ride completed; the `ride_completed` handler (the
fare-settling path) computes `finalFare = fare(actualDistance when positive,
otherwise estimatedDistance)` and `actualDuration = (endedAt − startedAt)` in
minutes when `startedAt` is known. -/
theorem complete_ride_fares :
    (∀ (uid : Option String) (rideId driverId : String) (ap : Option ℚ) (now : ℤ)
        (rides : RideMap) (r : Ride),
      mapGet rides rideId = some r → r.driverId = some driverId →
      (mapGet (completeRideHandler uid rideId driverId ap now rides).1 rideId).map
          (fun r2 => (r2.actualPrice, r2.status)) =
        some (some (qOr ap r.estimatedPrice), "completed")) ∧
    (∀ (uid : Option String) (driverId rideId : String) (now : ℤ)
        (rides : RideMap) (r : Ride),
      mapGet rides rideId = some r →
      (∀ v, r.actualDistance = some v → 0 ≤ v) →
      (mapGet (rideCompletedHandler uid driverId rideId now rides).1 rideId).map
          (fun r2 => (r2.finalFare, r2.actualDuration)) =
        some (some (calculateFare (posOr r.actualDistance r.estimatedDistance)),
          match r.startTime with
          | some s => some (jsRound (((now - s : ℤ) : ℚ) / (1000 * 60)))
          | none => r.actualDuration)) := by
  constructor
  · intro uid rideId driverId ap now rides r h hdr
    unfold completeRideHandler
    rw [h]
    simp [hdr, mapGet_set_self]
  · intro uid driverId rideId now rides r h hx
    have hq := qOr_nonneg_pos r.actualDistance r.estimatedDistance hx
    unfold rideCompletedHandler
    rw [h]
    simp [mapGet_set_self, hq]

/-- Concrete instantiation of C6 (amended): completing an in-progress ride
with a caller-supplied `actualPrice` of 999 stores exactly that price. -/
theorem complete_ride_fares_witness :
    (mapGet (completeRideHandler none "r1" "d1" (some 999) 60000
        [("r1", { sampleRide with driverId := some "d1", status := "inProgress", startTime := some 0, actualDistance := some 3 })]).1 "r1").map
      (fun r2 => (r2.actualPrice, r2.status)) = some (some 999, "completed") :=
  complete_ride_fares.1 none "r1" "d1" (some 999) 60000
    [("r1", { sampleRide with driverId := some "d1", status := "inProgress", startTime := some 0, actualDistance := some 3 })]
    { sampleRide with driverId := some "d1", status := "inProgress", startTime := some 0, actualDistance := some 3 } rfl rfl

/-- C6 counterexample: the driver calls `complete_ride` with `actualPrice =
999`; the stored price is 999 although the fare function of either the
accrued distance (3 km → 60) or the estimated distance (5 km → 100) gives a
different value — the final price is caller-controlled, contradicting the
claim. -/
theorem complete_ride_caller_price :
    (mapGet (completeRideHandler none "r1" "d1" (some 999) 60000
        [("r1", { sampleRide with driverId := some "d1", status := "inProgress", startTime := some 0, actualDistance := some 3 })]).1 "r1").map
      Ride.actualPrice = some (some 999) ∧
    calculateFare 3 = 60 ∧
    calculateFare 5 = 100 ∧
    (999 : ℚ) ≠ 60 ∧
    (999 : ℚ) ≠ 100 := by
  refine ⟨rfl, ?_, ?_, by norm_num, by norm_num⟩
  · unfold calculateFare FARE_PER_KM
    rw [jsRound_eq ((3 : ℚ) * 20) 60 (by norm_num) (by norm_num)]
    norm_num
  · unfold calculateFare FARE_PER_KM
    rw [jsRound_eq ((5 : ℚ) * 20) 100 (by norm_num) (by norm_num)]
    norm_num

/-! ## C9 — movement-history authorization -/

/-- C9 (amended): `request_driver_movement` delivers a movement history to the
caller iff the payload ids are nonempty, the ride exists, and the ride belongs
to the socket's authenticated user; in that case it delivers the history of
whatever `driverId` the payload names — the code never checks that the driver
is the one assigned to the ride. -/
theorem movement_history_authorization (uid : Option String) (rideId driverId : String)
    (rides : RideMap) (hist : HistMap) :
    ((∃ h, (⟨Target.caller, "driver_movement_history", PData.hist h⟩ : Emit) ∈
        requestDriverMovement uid rideId driverId rides hist) ↔
      (rideId ≠ "" ∧ driverId ≠ "" ∧
        ∃ ride, mapGet rides rideId = some ride ∧ uid = some ride.userId)) ∧
    (∀ ride, mapGet rides rideId = some ride → uid = some ride.userId →
      rideId ≠ "" → driverId ≠ "" →
      requestDriverMovement uid rideId driverId rides hist =
        [⟨Target.caller, "driver_movement_history",
          PData.hist ((mapGet hist driverId).getD [])⟩]) := by
  unfold requestDriverMovement
  by_cases hg : rideId = "" ∨ driverId = ""
  · rw [if_pos hg]
    constructor
    · constructor
      · rintro ⟨h, hmem⟩
        simp at hmem
      · rintro ⟨h1, h2, _⟩
        rcases hg with hg | hg
        · exact absurd hg h1
        · exact absurd hg h2
    · intro ride hm hu h1 h2
      rcases hg with hg | hg
      · exact absurd hg h1
      · exact absurd hg h2
  · rw [if_neg hg]
    push_neg at hg
    cases hm : mapGet rides rideId with
    | none =>
      constructor
      · constructor
        · rintro ⟨h, hmem⟩
          simp at hmem
        · rintro ⟨_, _, ride, hride, _⟩
          simp at hride
      · intro ride hride
        simp at hride
    | some ride =>
      by_cases hu : uid = some ride.userId
      · refine ⟨⟨fun _ => ⟨hg.1, hg.2, ride, rfl, hu⟩,
          fun _ => ⟨(mapGet hist driverId).getD [], by simp [hu]⟩⟩, ?_⟩
        intro ride2 hride2 hu2 h1 h2
        simp [hu]
      · refine ⟨⟨?_, ?_⟩, ?_⟩
        · rintro ⟨h, hmem⟩
          simp [hu] at hmem
        · rintro ⟨_, _, ride2, hride2, hu2⟩
          have he : ride = ride2 := by simpa using hride2
          rw [← he] at hu2
          exact absurd hu2 hu
        · intro ride2 hride2 hu2 h1 h2
          have he : ride = ride2 := by simpa using hride2
          rw [← he] at hu2
          exact absurd hu2 hu

/-- Concrete instantiation of C9 (amended): the owning rider requests driver
d2's history against their own ride and receives it. -/
theorem movement_history_authorization_witness :
    requestDriverMovement (some "u1") "r1" "d2"
        [("r1", { sampleRide with driverId := some "d1", status := "inProgress" })]
        [("d2", [⟨7, 8, 9⟩])] =
      [⟨Target.caller, "driver_movement_history",
        PData.hist ((mapGet [("d2", [(⟨7, 8, 9⟩ : RoutePoint)])] "d2").getD [])⟩] :=
  (movement_history_authorization (some "u1") "r1" "d2"
      [("r1", { sampleRide with driverId := some "d1", status := "inProgress" })]
      [("d2", [⟨7, 8, 9⟩])]).2
    { sampleRide with driverId := some "d1", status := "inProgress" } rfl rfl
    (by decide) (by decide)

/-- C9 counterexample: the ride's assigned driver is d1, yet the rider's
request names d2 and d2's movement history is delivered anyway — the claim
says no history may be delivered for a driver not assigned to the ride. -/
theorem movement_history_unassigned_driver :
    (mapGet [("r1", { sampleRide with driverId := some "d1", status := "inProgress" })]
        "r1").map Ride.driverId = some (some "d1") ∧
    ("d2" : String) ≠ "d1" ∧
    requestDriverMovement (some "u1") "r1" "d2"
        [("r1", { sampleRide with driverId := some "d1", status := "inProgress" })]
        [("d2", [⟨7, 8, 9⟩])] =
      [⟨Target.caller, "driver_movement_history", PData.hist [⟨7, 8, 9⟩]⟩] :=
  ⟨rfl, by decide, rfl⟩

/-! ## C10 — payload-only authority (socket identity not consulted) -/

theorem mapSet_map (m : List (String × α)) (k : String) (v : α) (f : α → β) :
    (mapSet m k v).map (fun p => (p.1, f p.2)) =
      mapSet (m.map (fun p => (p.1, f p.2))) k (f v) := by
  induction m with
  | nil => rfl
  | cons p rest ih =>
    by_cases h : p.1 = k <;> simp [mapSet, h, ih]

/-- C10 (amended): none of the six state-mutating handlers consults
`socket.userId` — the resulting registries and emissions are identical for any
two authentications — so any connected socket can act for any participant id
named in the payload.  The `driver_status_update` handler does, however,
record the emitting socket's id as the driver's stored `socketId`; apart from
that one field its result is also independent of the socket identity. -/
theorem handlers_ignore_socket_identity :
    (∀ (u1 u2 : Option String) (sid driverId : String) (isOnline : Bool)
        (location : Option Location) (now : ℤ) (clients : ClientMap)
        (dlocs : DriverLocMap) (rides : RideMap),
      driverStatusUpdate u1 sid driverId isOnline location now clients dlocs rides =
        driverStatusUpdate u2 sid driverId isOnline location now clients dlocs rides) ∧
    (∀ (u1 u2 : Option String) (rideId driverId : String) (dd : DriverData) (now : ℤ)
        (rides : RideMap),
      driverAcceptRide u1 rideId driverId dd now rides =
        driverAcceptRide u2 rideId driverId dd now rides) ∧
    (∀ (u1 u2 : Option String) (rideId driverId : String) (now : ℤ) (rides : RideMap),
      driverArrivedHandler u1 rideId driverId now rides =
        driverArrivedHandler u2 rideId driverId now rides) ∧
    (∀ (u1 u2 : Option String) (rideId driverId : String) (now : ℤ) (rides : RideMap),
      startRideHandler u1 rideId driverId now rides =
        startRideHandler u2 rideId driverId now rides) ∧
    (∀ (u1 u2 : Option String) (rideId driverId : String) (ap : Option ℚ) (now : ℤ)
        (rides : RideMap),
      completeRideHandler u1 rideId driverId ap now rides =
        completeRideHandler u2 rideId driverId ap now rides) ∧
    (∀ (u1 u2 : Option String) (rideId userId : String) (reason : Option String) (now : ℤ)
        (rides : RideMap),
      cancelRideHandler u1 rideId userId reason now rides =
        cancelRideHandler u2 rideId userId reason now rides) ∧
    (∀ (uid : Option String) (sid1 sid2 driverId : String) (isOnline : Bool)
        (location : Option Location) (now : ℤ) (clients : ClientMap)
        (dlocs : DriverLocMap) (rides : RideMap),
      (driverStatusUpdate uid sid1 driverId isOnline location now clients dlocs rides).emits =
        (driverStatusUpdate uid sid2 driverId isOnline location now clients dlocs rides).emits ∧
      (driverStatusUpdate uid sid1 driverId isOnline location now clients dlocs rides).dlocs =
        (driverStatusUpdate uid sid2 driverId isOnline location now clients dlocs rides).dlocs ∧
      (driverStatusUpdate uid sid1 driverId isOnline location now clients dlocs
            rides).clients.map (fun p => (p.1, p.2.clearSocket)) =
        (driverStatusUpdate uid sid2 driverId isOnline location now clients dlocs
            rides).clients.map (fun p => (p.1, p.2.clearSocket))) := by
  refine ⟨fun _ _ _ _ _ _ _ _ _ _ => rfl, fun _ _ _ _ _ _ _ => rfl,
    fun _ _ _ _ _ _ => rfl, fun _ _ _ _ _ _ => rfl, fun _ _ _ _ _ _ _ => rfl,
    fun _ _ _ _ _ _ _ => rfl, ?_⟩
  intro uid sid1 sid2 driverId isOnline location now clients dlocs rides
  unfold driverStatusUpdate
  by_cases hd : driverId = ""
  · rw [if_pos hd, if_pos hd]
    exact ⟨rfl, rfl, rfl⟩
  · rw [if_neg hd, if_neg hd]
    cases hm : mapGet clients driverId with
    | none =>
      refine ⟨rfl, rfl, ?_⟩
      rw [mapSet_map, mapSet_map]
      rfl
    | some c =>
      refine ⟨rfl, rfl, ?_⟩
      rw [mapSet_map, mapSet_map]
      rfl

/-- C10 counterexample: two differently-authenticated sockets (distinct
socket ids) send the same `driver_status_update` payload against the same
state; the resulting client registries differ (in the stored `socketId`), so
the resulting state is not literally identical. -/
theorem status_update_stores_socket_id :
    (driverStatusUpdate (some "alice") "s1" "d1" true none 0 [] [] []).clients ≠
      (driverStatusUpdate (some "bob") "s2" "d1" true none 0 [] [] []).clients := by
  decide

end RideEngine
